import Mathlib

/-!
Verification of the Turn Controller and Streaming Move Protocol of the
llm-chessmatch frontend (src/frontend/src/components/ChessGame.tsx).

The React component's `GameState` record is embedded as the structure
`GameState` below.  The `game : Chess` object held by the component is an
instance of the external chess.js rules library; the controller only ever
reads `game.fen()` and `game.history()` from it, so it is embedded as the
two fields `position` and `history`, and the outcome of the rules engine on
a candidate move (accept / reject-by-null / reject-by-throw) is passed to
the result handler as an explicit `EngineOutcome` value, since the engine
itself is an external black box.

The asynchronous `makeMove` / `handleDrawResponse` callbacks are embedded
as explicit state-transition functions: the synchronous prefix that starts
a request (`startMoveRequest`, `startDrawRequest`), and the state update
performed when the request terminates (`finishMoveRequest`,
`finishDrawRequest`), where the possible terminations (a `result` event, a
transport error, an abort, or end-of-stream without a result event) are the
constructors of `MoveRequestOutcome` / `DrawRequestOutcome`.

`IS_DEBUG` is `false` in this model (the default when the
`REACT_APP_DEBUG` environment variable is unset).
-/

/-- The two chess colors, the values of the component's
`currentPlayer : 'white' | 'black'` field. -/
inductive Color
  | white
  | black
deriving DecidableEq, Repr

/-- Flipping a color, as in
`prevState.currentPlayer === 'white' ? 'black' : 'white'`. -/
def Color.other : Color → Color
  | .white => .black
  | .black => .white

/-- The `capturedPieces` field of `GameState` in ChessGame.tsx:
one ordered list of captured piece symbols per capturing color. -/
structure CapturedPieces where
  white : List String
  black : List String
deriving DecidableEq, Repr

/-- The `drawOffer` field of `GameState` in ChessGame.tsx. -/
structure DrawOffer where
  offered : Bool
  offeredBy : Option Color
deriving DecidableEq, Repr

/-- The move object returned by the chess.js rules engine on success
(`newGame.move(data.move)`), restricted to the fields the controller
reads: `from`, `to`, `color`, `piece`, `captured`, and the SAN text that
the engine appends to its history. -/
structure MoveRecord where
  fromSq : String
  toSq : String
  color : Color
  piece : String
  captured : Option String
  san : String
deriving DecidableEq, Repr

/-- The per-component React state of ChessGame.tsx (`interface GameState`,
lines 18-49).  The `game : Chess` object is represented by the `position`
(= `game.fen()`) and `history` (= `game.history()`) it supplies to the
controller. -/
structure GameState where
  position : String
  history : List String
  isGameStarted : Bool
  isGameOver : Bool
  currentPlayer : Color
  whiteModel : String
  blackModel : String
  isThinking : Bool
  gameResult : Option String
  isPaused : Bool
  capturedPieces : CapturedPieces
  moveThinkingTokens : List Nat
  moveTimes : List Nat
  drawOffer : DrawOffer
  awaitingDrawResponse : Bool
  thinkingOutput : String
  isStreaming : Bool
  errorMessage : Option String
  lastMove : Option MoveRecord
deriving DecidableEq, Repr

/-- The FEN of `new Chess()`, the fresh starting position produced by the
chess.js rules engine. -/
def initialFen : String :=
  "rnbqkbnr/pppppppp/8/8/8/8/PPPPPPPP/RNBQKBNR w KQkq - 0 1"

/-- The initial component state passed to `useState` (ChessGame.tsx lines
60-85). -/
def initialGameState : GameState where
  position := initialFen
  history := []
  isGameStarted := false
  isGameOver := false
  currentPlayer := .white
  whiteModel := ""
  blackModel := ""
  isThinking := false
  gameResult := none
  isPaused := false
  capturedPieces := { white := [], black := [] }
  moveThinkingTokens := []
  moveTimes := []
  drawOffer := { offered := false, offeredBy := none }
  awaitingDrawResponse := false
  thinkingOutput := ""
  isStreaming := false
  errorMessage := none
  lastMove := none

/-- The fixed six-model list `MODELS` (ChessGame.tsx lines 9-16). -/
def MODELS : List String :=
  [ "claude-opus-4-20250514",
    "claude-sonnet-4-20250514",
    "o4-mini",
    "gemini-2.5-pro-preview-05-06",
    "gemini-2.5-flash-preview-05-20",
    "grok-3-mini" ]

/-- `'white' ? 'White' : 'Black'` as used in the user-visible messages. -/
def colorName : Color → String
  | .white => "White"
  | .black => "Black"

/-- What the chess.js engine did with the candidate move text after the
controller replayed the history into a fresh engine: either the move was
accepted (yielding the move record, the new FEN and the engine's
termination flags `isGameOver()` / `isCheckmate()` / `isDraw()`), or it was
rejected by `newGame.move` returning a falsy value, or it was rejected by
`newGame.move` throwing (the behavior of chess.js v1.x on illegal or
unparseable SAN such as "Z9"). -/
inductive EngineOutcome
  | accepted (rec : MoveRecord) (newFen : String)
      (over : Bool) (mate : Bool) (draw : Bool)
  | rejectedNull
  | rejectedThrow
deriving DecidableEq, Repr

/-- The payload `data` of a terminal `result` stream event
(`{ move?, action?, thinking_tokens? }`): a resign action, a draw-offer
action, a truthy `move` string together with what the engine did with it,
or none of these (no action and no/empty move).  `thinking_tokens || 0` is
embedded as a `Nat`. -/
inductive ResultData
  | resign (thinkingTokens : Nat)
  | drawOffer (thinkingTokens : Nat)
  | move (text : String) (thinkingTokens : Nat) (outcome : EngineOutcome)
  | noMove (thinkingTokens : Nat)
deriving DecidableEq, Repr

/-- The body of the `result`-event state update in `makeMove`
(ChessGame.tsx lines 207-323), reached when the stale-response guard has
passed. -/
def applyResultBody (model : String) (player : Color) (moveTime : Nat)
    (data : ResultData) (s : GameState) : GameState :=
  match data with
  | .resign tk =>
    { s with isGameOver := true,
             gameResult := some (colorName player ++ " resigned. " ++
               colorName player.other ++ " wins!"),
             isThinking := false, isStreaming := false,
             moveThinkingTokens := s.moveThinkingTokens ++ [tk],
             moveTimes := s.moveTimes ++ [moveTime] }
  | .drawOffer tk =>
    { s with drawOffer := { offered := true, offeredBy := some player },
             awaitingDrawResponse := true,
             isThinking := false, isStreaming := false,
             moveThinkingTokens := s.moveThinkingTokens ++ [tk],
             moveTimes := s.moveTimes ++ [moveTime] }
  | .move _ tk outcome =>
    match outcome with
    | .accepted rec newFen over mate draw =>
      { s with position := newFen,
               history := s.history ++ [rec.san],
               currentPlayer := s.currentPlayer.other,
               isGameOver := over,
               gameResult :=
                 if over then
                   if mate then some (colorName player ++ " wins by checkmate!")
                   else if draw then some "Game ends in a draw!"
                   else none
                 else none,
               isThinking := false, isStreaming := false,
               capturedPieces :=
                 match rec.captured with
                 | some p =>
                   match player with
                   | .white =>
                     { s.capturedPieces with
                         white := s.capturedPieces.white ++ [p] }
                   | .black =>
                     { s.capturedPieces with
                         black := s.capturedPieces.black ++ [p] }
                 | none => s.capturedPieces,
               moveThinkingTokens := s.moveThinkingTokens ++ [tk],
               moveTimes := s.moveTimes ++ [moveTime],
               lastMove := some rec }
    | .rejectedNull =>
      { s with isThinking := false, isStreaming := false }
    | .rejectedThrow =>
      { s with isThinking := false, isStreaming := false,
               errorMessage := some ("Retrying request due to invalid move by "
                 ++ colorName player ++ " (" ++ model ++ ")") }
  | .noMove _ =>
    { s with isThinking := false, isStreaming := false }

/-- The `result`-event state update of `makeMove`, including the
stale-response guard `if (prevState.isGameOver || !prevState.isThinking)
return prevState` (ChessGame.tsx lines 201-324). -/
def applyResult (model : String) (player : Color) (moveTime : Nat)
    (data : ResultData) (s : GameState) : GameState :=
  if s.isGameOver || !s.isThinking then s
  else applyResultBody model player moveTime data s

/-- The synchronous prefix of `makeMove` (ChessGame.tsx lines 92-129): the
duplicate-call guard, then setting the thinking flags and clearing the
previous thinking output (the existing error message is kept). -/
def startMoveRequest (supportsStreaming : Bool) (s : GameState) : GameState :=
  if s.isGameOver || s.isThinking then s
  else { s with isThinking := true, thinkingOutput := "",
                isStreaming := supportsStreaming }

/-- How a move request (`POST /get_move_stream`) can terminate for
state-update purposes: with a terminal `result` event carrying a payload
and an elapsed time; with a transport error rejected by `fetch`; aborted
via its AbortController; or with the stream ending (or the response being
non-ok) before any `result` event was seen. -/
inductive MoveRequestOutcome
  | result (data : ResultData) (moveTime : Nat)
  | networkError
  | aborted
  | endOfStreamNoResult
deriving DecidableEq, Repr

/-- The state update performed when a move request terminates
(ChessGame.tsx lines 160-349): a `result` event runs `applyResult`; a
non-abort transport error runs the outer catch, which only clears the
thinking/streaming flags (line 348); an abort returns without updating
state (lines 342-346); and reaching end-of-stream without a `result` event
runs no state update at all — the read loop simply exits and the function
returns (lines 166-168, nothing follows the loop). -/
def finishMoveRequest (model : String) (player : Color)
    (o : MoveRequestOutcome) (s : GameState) : GameState :=
  match o with
  | .result data t => applyResult model player t data s
  | .networkError => { s with isThinking := false, isStreaming := false }
  | .aborted => s
  | .endOfStreamNoResult => s

/-- The synchronous prefix of `handleDrawResponse` (ChessGame.tsx lines
352-371, 455): the duplicate-call guard, then setting `isThinking`. -/
def startDrawRequest (s : GameState) : GameState :=
  if s.isGameOver || s.isThinking || !s.awaitingDrawResponse then s
  else { s with isThinking := true }

/-- The response handler of `handleDrawResponse` (ChessGame.tsx lines
396-434): the stale-response guard, then appending one entry to each
metrics list and branching on whether `data.action === 'draw_accept'`. -/
def applyDrawResponse (action : String) (thinkingTokens moveTime : Nat)
    (s : GameState) : GameState :=
  if s.isGameOver || !s.isThinking || !s.awaitingDrawResponse then s
  else
    let tks := s.moveThinkingTokens ++ [thinkingTokens]
    let tms := s.moveTimes ++ [moveTime]
    if action = "draw_accept" then
      { s with isGameOver := true,
               gameResult := some "Game ends in a draw by agreement!",
               isThinking := false,
               drawOffer := { offered := false, offeredBy := none },
               awaitingDrawResponse := false,
               moveThinkingTokens := tks, moveTimes := tms }
    else
      { s with isThinking := false,
               drawOffer := { offered := false, offeredBy := none },
               awaitingDrawResponse := false,
               moveThinkingTokens := tks, moveTimes := tms }

/-- The catch branch of `handleDrawResponse` for a non-abort error
(ChessGame.tsx lines 442-451): clear `isThinking`, drop the draw offer and
leave `awaitingDrawResponse` false; no metrics entry is appended. -/
def drawResponseError (s : GameState) : GameState :=
  { s with isThinking := false,
           drawOffer := { offered := false, offeredBy := none },
           awaitingDrawResponse := false }

/-- How a draw-response request (`POST /draw_response`) can terminate: a
JSON body with an `action` string and token count, a non-abort transport
error, or an abort (which returns without updating state, lines 438-441). -/
inductive DrawRequestOutcome
  | result (action : String) (thinkingTokens : Nat) (moveTime : Nat)
  | networkError
  | aborted
deriving DecidableEq, Repr

/-- The state update performed when a draw-response request terminates. -/
def finishDrawRequest (o : DrawRequestOutcome) (s : GameState) : GameState :=
  match o with
  | .result a tk t => applyDrawResponse a tk t s
  | .networkError => drawResponseError s
  | .aborted => s

/-- The error-display timeout callback (ChessGame.tsx lines 308-310),
which fires 3000 ms after an invalid move and clears the error message. -/
def clearErrorTimeout (s : GameState) : GameState :=
  { s with errorMessage := none }

/-- `startGame` (ChessGame.tsx lines 459-480): validation that both models
are selected (the alert changes no state), then a state update that starts
the game with a fresh engine and empty metrics.  Note that it spreads
`...prev`, so `capturedPieces`, `currentPlayer`, `isGameOver`,
`gameResult`, `isThinking`, `isPaused` and `lastMove` are preserved from
the previous state rather than reset. -/
def startGame (s : GameState) : GameState :=
  if s.whiteModel = "" || s.blackModel = "" then s
  else
    { s with isGameStarted := true,
             position := initialFen,
             history := [],
             moveThinkingTokens := [],
             moveTimes := [],
             drawOffer := { offered := false, offeredBy := none },
             awaitingDrawResponse := false,
             thinkingOutput := "",
             isStreaming := false,
             errorMessage := none }

/-- `resetGame` (ChessGame.tsx lines 510-549): abort any in-flight request
and replace the whole state with the initial one, keeping only the two
selected models. -/
def resetGame (s : GameState) : GameState :=
  { initialGameState with whiteModel := s.whiteModel,
                          blackModel := s.blackModel }

/-- `togglePause` (ChessGame.tsx lines 551-556). -/
def togglePause (s : GameState) : GameState :=
  { s with isPaused := !s.isPaused }

/-- `pickRandomModels` (ChessGame.tsx lines 558-570).  The source shuffles
a copy of `MODELS` with `sort(() => Math.random() - 0.5)` and destructures
its first two elements; JS `Array.prototype.sort` always returns a
permutation of its input, so the shuffled list is passed in as a parameter
(claims quantify over all permutations of `MODELS`). -/
def pickRandomModels (shuffled : List String) (s : GameState) : GameState :=
  { s with whiteModel := shuffled.getD 0 "",
           blackModel := shuffled.getD 1 "" }

/-- The model of the color to move, `currentPlayer === 'white' ?
whiteModel : blackModel` (ChessGame.tsx line 492). -/
def currentModel (s : GameState) : String :=
  match s.currentPlayer with
  | .white => s.whiteModel
  | .black => s.blackModel

/-- The two kinds of request the controller can issue: a move request to
`/get_move_stream` or a draw-response request to `/draw_response`, each
carrying the model identifier put in the request body and the color the
request is issued for. -/
inductive Request
  | moveReq (model : String) (player : Color)
  | drawResponseReq (model : String) (player : Color)
deriving DecidableEq, Repr

/-- The request the auto-play effect issues next (ChessGame.tsx lines
490-508): when the game is started, not over, not thinking and not paused,
and the current player's model is non-empty, it schedules either
`handleDrawResponse(currentModel, currentPlayer)` (when
`awaitingDrawResponse`) or `makeMove(currentModel, currentPlayer)`. -/
def nextAction (s : GameState) : Option Request :=
  if s.isGameStarted && !s.isGameOver && !s.isThinking && !s.isPaused then
    if currentModel s = "" then none
    else if s.awaitingDrawResponse then
      some (.drawResponseReq (currentModel s) s.currentPlayer)
    else
      some (.moveReq (currentModel s) s.currentPlayer)
  else none

/-- Every state-changing reaction of the controller, as one operation
type: starting/finishing a move request, starting/finishing a
draw-response request, the error-clear timer tick, `startGame`,
`resetGame`, `pickRandomModels` and `togglePause`. -/
inductive SessionOp
  | startMoveReq (supportsStreaming : Bool)
  | finishMoveReq (model : String) (player : Color)
      (outcome : MoveRequestOutcome)
  | startDrawReq
  | finishDrawReq (outcome : DrawRequestOutcome)
  | clearErrorTick
  | startGameOp
  | resetGameOp
  | pickRandomOp (shuffled : List String)
  | togglePauseOp
deriving DecidableEq, Repr

/-- Interpreting one `SessionOp` on the state. -/
def applyOp (op : SessionOp) (s : GameState) : GameState :=
  match op with
  | .startMoveReq b => startMoveRequest b s
  | .finishMoveReq m p o => finishMoveRequest m p o s
  | .startDrawReq => startDrawRequest s
  | .finishDrawReq o => finishDrawRequest o s
  | .clearErrorTick => clearErrorTimeout s
  | .startGameOp => startGame s
  | .resetGameOp => resetGame s
  | .pickRandomOp l => pickRandomModels l s
  | .togglePauseOp => togglePause s

/-- Running a sequence of operations. -/
def runOps (ops : List SessionOp) (s : GameState) : GameState :=
  ops.foldl (fun st op => applyOp op st) s

/-- Whether an operation, applied at state `s`, is a completed turn in the
sense of the spec (an applied move, a resignation, a draw offer, a draw
accept or a draw decline whose stale-response guard passes): 1 if so,
0 otherwise. -/
def turnDelta (op : SessionOp) (s : GameState) : Nat :=
  match op with
  | .finishMoveReq _ _ (.result data _) =>
    if s.isGameOver || !s.isThinking then 0
    else
      match data with
      | .resign _ => 1
      | .drawOffer _ => 1
      | .move _ _ (.accepted _ _ _ _ _) => 1
      | .move _ _ _ => 0
      | .noMove _ => 0
  | .finishDrawReq (.result _ _ _) =>
    if s.isGameOver || !s.isThinking || !s.awaitingDrawResponse then 0 else 1
  | _ => 0

/-- The number of completed turns along a run of operations from `s`. -/
def countTurns (ops : List SessionOp) (s : GameState) : Nat :=
  match ops with
  | [] => 0
  | op :: rest => turnDelta op s + countTurns rest (applyOp op s)

/-! ## Streaming Event Decoder

The read loop of `makeMove` (ChessGame.tsx lines 160-184) accumulates
incoming text in a buffer, splits on newline, keeps the final
possibly-incomplete fragment as the new buffer, and attempts to decode
each complete line: trims it, requires the `data: ` prefix, skips the
literal `[DONE]` marker, and otherwise parses the payload as JSON with a
`type` discriminator (`thinking_delta`, `thinking_end`, `result`).
JS strings are embedded as `List Char`. -/

/-- The opening-brace character. -/
def lbrace : Char := Char.ofNat 123

/-- The closing-brace character. -/
def rbrace : Char := Char.ofNat 125

/-- The double-quote character. -/
def quoteChar : Char := Char.ofNat 34

/-- The backslash character. -/
def backslashChar : Char := Char.ofNat 92

/-- JSON escape-sequence translation for the character following a
backslash inside a string literal. -/
def escChar (c : Char) : Char :=
  if c = 'n' then '\n'
  else if c = 't' then '\t'
  else if c = 'r' then '\r'
  else if c = 'b' then Char.ofNat 8
  else if c = 'f' then Char.ofNat 12
  else c

/-- Parse the body of a JSON string literal (the part after the opening
quote), returning the decoded string and the rest of the input after the
closing quote. -/
def parseStringBody : List Char → Option (String × List Char)
  | [] => none
  | c :: rest =>
    if c = quoteChar then some ("", rest)
    else if c = backslashChar then
      match rest with
      | [] => none
      | e :: rest2 =>
        (parseStringBody rest2).map
          (fun p => (String.mk [escChar e] ++ p.1, p.2))
    else
      (parseStringBody rest).map (fun p => (String.mk [c] ++ p.1, p.2))

/-- Skip JSON whitespace. -/
def skipWs : List Char → List Char
  | [] => []
  | c :: rest =>
    if c = ' ' || c = '\t' || c = '\n' || c = '\r' then skipWs rest
    else c :: rest

/-- Parse one `"key" : "value"` member of a flat JSON object. -/
def parsePair (l : List Char) : Option (String × String × List Char) :=
  match skipWs l with
  | [] => none
  | c :: rest =>
    if c = quoteChar then
      match parseStringBody rest with
      | none => none
      | some (k, rest2) =>
        match skipWs rest2 with
        | ':' :: rest3 =>
          match skipWs rest3 with
          | [] => none
          | c2 :: rest4 =>
            if c2 = quoteChar then
              (parseStringBody rest4).map (fun p => (k, p.1, p.2))
            else none
        | _ => none
    else none

/-- Parse the members of a flat JSON object after its opening brace, up to
and including the closing brace.  `fuel` bounds the number of members. -/
def parseMembers : Nat → List Char → Option (List (String × String) × List Char)
  | 0, _ => none
  | fuel + 1, l =>
    match parsePair l with
    | none => none
    | some (k, v, rest) =>
      match skipWs rest with
      | c :: rest2 =>
        if c = ',' then
          (parseMembers fuel rest2).map (fun p => ((k, v) :: p.1, p.2))
        else if c = rbrace then some ([(k, v)], rest2)
        else none
      | [] => none

/-- Modelled from the spec: the JS builtin `JSON.parse` applied by the
decoder to an event line (ChessGame.tsx line 181), restricted to the flat
objects with string keys and string values that the thinking-phase events
of the stream protocol use; any other shape fails to parse (and a failed
parse is swallowed by the decoder, like a JSON.parse exception). -/
def parseFlatObj (str : List Char) : Option (List (String × String)) :=
  match skipWs str with
  | [] => none
  | c :: rest =>
    if c = lbrace then
      match skipWs rest with
      | c2 :: rest2 =>
        if c2 = rbrace then
          match skipWs rest2 with
          | [] => some []
          | _ => none
        else
          match parseMembers (rest.length + 1) rest with
          | some (kvs, rest3) =>
            match skipWs rest3 with
            | [] => some kvs
            | _ => none
          | none => none
      | [] => none
    else none

/-- The typed events the decoder can recognize on a `data: ` line
(ChessGame.tsx lines 183-191): an incremental thinking delta with its
content, the end-of-thinking marker, a terminal result event, or a
recognized JSON object of some other type (a no-op). -/
inductive StreamEvent
  | thinkingDelta (content : String)
  | thinkingEnd
  | resultEvent
  | otherEvent
deriving DecidableEq, Repr

/-- Whether a character is trimmed by the JS `String.prototype.trim`
builtin that the decoder applies to each line. -/
def isJsWhitespace (c : Char) : Bool :=
  c = ' ' || c = '\t' || c = '\n' || c = '\r' ||
  c = Char.ofNat 11 || c = Char.ofNat 12

/-- The JS `line.trim()` applied by the decoder (ChessGame.tsx line 175):
strip whitespace from both ends. -/
def trimChars (l : List Char) : List Char :=
  ((l.dropWhile isJsWhitespace).reverse.dropWhile isJsWhitespace).reverse

/-- Decoding one complete line (ChessGame.tsx lines 175-191): trim it,
require the `data: ` prefix (dropping those 6 characters gives the
payload), skip the `[DONE]` marker, parse the payload as JSON (a parse
failure is swallowed), and read the `type` field.  For a `thinking_delta`
the `content` field is the emitted text. -/
def decodeLine (l : List Char) : Option StreamEvent :=
  match trimChars l with
  | 'd' :: 'a' :: 't' :: 'a' :: ':' :: ' ' :: dataStr =>
    if dataStr = String.data "[DONE]" then none
    else
      match parseFlatObj dataStr with
      | none => none
      | some kvs =>
        match kvs.lookup "type" with
        | some t =>
          if t = "thinking_delta" then
            some (.thinkingDelta ((kvs.lookup "content").getD ""))
          else if t = "thinking_end" then some .thinkingEnd
          else if t = "result" then some .resultEvent
          else some .otherEvent
        | none => some .otherEvent
  | _ => none

/-- Splitting a character list on newlines, the embedding of
`buffer.split('\n')` (ChessGame.tsx line 171): always returns at least one
(possibly empty) fragment, and one extra fragment per newline. -/
def splitNl : List Char → List (List Char)
  | [] => [[]]
  | c :: rest =>
    let r := splitNl rest
    if c = '\n' then [] :: r
    else (c :: r.headD []) :: r.tail

/-- The state of the streaming decoder: the accumulation buffer holding
the final possibly-incomplete line fragment, and the events emitted so
far. -/
structure DecoderState where
  buffer : List Char
  events : List StreamEvent
deriving DecidableEq, Repr

/-- Processing one delivered chunk (ChessGame.tsx lines 170-184): append
it to the buffer, split on newline, keep the last fragment as the new
buffer, and decode every complete line in order. -/
def processChunk (st : DecoderState) (chunk : List Char) : DecoderState :=
  let lines := splitNl (st.buffer ++ chunk)
  { buffer := lines.getLastD [],
    events := st.events ++ lines.dropLast.filterMap decodeLine }

/-! ### Chunk-boundary invariance of the decoder -/

/-- `splitNl` never returns the empty list. -/
theorem splitNl_ne_nil (l : List Char) : splitNl l ≠ [] := by
  cases l with
  | nil => simp [splitNl]
  | cons c rest =>
    simp only [splitNl]
    split <;> simp

/-- Restoring a nonempty list from its `headD` and `tail`. -/
theorem cons_headD_tail {α : Type} (xs : List α) (d : α) (h : xs ≠ []) :
    xs.headD d :: xs.tail = xs := by
  cases xs with
  | nil => exact absurd rfl h
  | cons x xs => rfl

/-- `getLastD` of an append whose right part is nonempty. -/
theorem getLastD_append_cons {α : Type} (u : List α) (v : α) (w : List α)
    (d : α) : (u ++ v :: w).getLastD d = (v :: w).getLastD d := by
  induction u with
  | nil => rfl
  | cons x u ih =>
    cases u with
    | nil => simp [List.getLastD_cons]
    | cons y u => simpa [List.getLastD_cons] using ih

/-- `dropLast` of an append whose right part is nonempty. -/
theorem dropLast_append_cons {α : Type} (u : List α) (v : α) (w : List α) :
    (u ++ v :: w).dropLast = u ++ (v :: w).dropLast := by
  induction u with
  | nil => rfl
  | cons x u ih =>
    cases u with
    | nil => simp
    | cons y u => simpa using ih

/-- Glueing two newline-split results across a concatenation boundary:
all complete fragments of the left part, then the last (incomplete)
fragment of the left part joined to the first fragment of the right part,
then the remaining fragments of the right part. -/
def glueSplit (xs ys : List (List Char)) : List (List Char) :=
  xs.dropLast ++ (xs.getLastD [] ++ ys.headD []) :: ys.tail

/-- `glueSplit` after peeling a fragment off a nonempty left part. -/
theorem glueSplit_cons (x : List Char) (xs ys : List (List Char))
    (h : xs ≠ []) : glueSplit (x :: xs) ys = x :: glueSplit xs ys := by
  cases xs with
  | nil => exact absurd rfl h
  | cons y xs => simp [glueSplit, List.getLastD_cons]

/-- How `splitNl` distributes over concatenation. -/
theorem splitNl_append (a b : List Char) :
    splitNl (a ++ b) = glueSplit (splitNl a) (splitNl b) := by
  induction a with
  | nil =>
    simp only [List.nil_append, splitNl, glueSplit, List.dropLast_nil,
      List.getLastD_nil, List.nil_append]
    exact (cons_headD_tail _ _ (splitNl_ne_nil b)).symm
  | cons c a ih =>
    by_cases hc : c = '\n'
    · subst hc
      have h1 : splitNl ('\n' :: a) = [] :: splitNl a := by
        simp [splitNl]
      have h2 : splitNl ('\n' :: (a ++ b)) = [] :: splitNl (a ++ b) := by
        simp [splitNl]
      rw [List.cons_append, h2, ih, h1,
        glueSplit_cons [] (splitNl a) (splitNl b) (splitNl_ne_nil a)]
    · obtain ⟨l, ls, hl⟩ : ∃ l ls, splitNl a = l :: ls := by
        cases h : splitNl a with
        | nil => exact absurd h (splitNl_ne_nil a)
        | cons l ls => exact ⟨l, ls, rfl⟩
      have h2 : splitNl (c :: (a ++ b)) =
          (c :: (splitNl (a ++ b)).headD []) :: (splitNl (a ++ b)).tail := by
        simp [splitNl, if_neg hc]
      cases ls with
      | nil =>
        have h3 : splitNl (c :: a) = [c :: l] := by
          simp [splitNl, if_neg hc, hl]
        have h4 : splitNl (a ++ b) =
            (l ++ (splitNl b).headD []) :: (splitNl b).tail := by
          rw [ih, hl]; simp [glueSplit]
        rw [List.cons_append, h2, h4, h3]
        simp [glueSplit]
      | cons l2 ls2 =>
        have h3 : splitNl (c :: a) = (c :: l) :: l2 :: ls2 := by
          simp [splitNl, if_neg hc, hl]
        have h4 : splitNl (a ++ b) =
            l :: glueSplit (l2 :: ls2) (splitNl b) := by
          rw [ih, hl, glueSplit_cons l (l2 :: ls2) (splitNl b) (by simp)]
        rw [List.cons_append, h2, h4, h3,
          glueSplit_cons (c :: l) (l2 :: ls2) (splitNl b) (by simp)]
        simp

/-- The final fragment of a newline split contains no newline. -/
theorem nl_not_mem_getLastD (s : List Char) :
    '\n' ∉ (splitNl s).getLastD [] := by
  induction s with
  | nil => simp [splitNl]
  | cons c s ih =>
    obtain ⟨l, ls, hl⟩ : ∃ l ls, splitNl s = l :: ls := by
      cases h : splitNl s with
      | nil => exact absurd h (splitNl_ne_nil s)
      | cons l ls => exact ⟨l, ls, rfl⟩
    by_cases hc : c = '\n'
    · subst hc
      simpa [splitNl, hl, List.getLastD_cons] using ih
    · cases ls with
      | nil =>
        simp only [splitNl, if_neg hc, hl] at *
        simp only [List.headD_cons, List.tail_cons, List.getLastD_cons,
          List.getLastD_nil] at *
        intro hmem
        rcases List.mem_cons.mp hmem with h | h
        · exact hc h.symm
        · exact ih h
      | cons l2 ls2 =>
        simp only [splitNl, if_neg hc, hl] at *
        simpa [List.getLastD_cons] using ih

/-- A newline-free character list splits into a single fragment. -/
theorem splitNl_eq_singleton (l : List Char) (h : '\n' ∉ l) :
    splitNl l = [l] := by
  induction l with
  | nil => rfl
  | cons c l ih =>
    have hc : c ≠ '\n' := fun hcc => h (hcc ▸ List.mem_cons_self c l)
    have hl : '\n' ∉ l := fun hm => h (List.mem_cons_of_mem c hm)
    simp [splitNl, if_neg hc, ih hl]

/-- Feeding two chunks one after the other is the same as feeding their
concatenation: the decoder emits the same events in the same order and
ends with the same buffer, wherever the boundary falls. -/
theorem processChunk_append (st : DecoderState) (c1 c2 : List Char) :
    processChunk (processChunk st c1) c2 = processChunk st (c1 ++ c2) := by
  unfold processChunk
  simp only
  rw [← List.append_assoc, splitNl_append (st.buffer ++ c1) c2]
  rw [splitNl_append _ c2,
    splitNl_eq_singleton _ (nl_not_mem_getLastD (st.buffer ++ c1))]
  obtain ⟨l, ls, hl⟩ : ∃ l ls, splitNl (st.buffer ++ c1) = l :: ls := by
    cases h : splitNl (st.buffer ++ c1) with
    | nil => exact absurd h (splitNl_ne_nil _)
    | cons l ls => exact ⟨l, ls, rfl⟩
  rw [hl]
  simp only [glueSplit, List.dropLast_single, List.getLastD_cons,
    List.getLastD_nil, List.nil_append, DecoderState.mk.injEq]
  refine ⟨?_, ?_⟩
  · rw [getLastD_append_cons, List.getLastD_cons]
  · rw [dropLast_append_cons, List.filterMap_append, List.append_assoc]

/-! ## Guard lemmas shared by the claims -/

/-- A move result arriving when the game is already over is discarded. -/
theorem applyResult_of_gameOver (model : String) (player : Color)
    (t : Nat) (data : ResultData) (s : GameState)
    (h : s.isGameOver = true) :
    applyResult model player t data s = s := by
  simp [applyResult, h]

/-- A move result arriving when no request is thinking is discarded. -/
theorem applyResult_of_not_thinking (model : String) (player : Color)
    (t : Nat) (data : ResultData) (s : GameState)
    (h : s.isThinking = false) :
    applyResult model player t data s = s := by
  simp [applyResult, h]

/-- A draw response arriving when the game is already over is discarded. -/
theorem applyDrawResponse_of_gameOver (action : String) (tk t : Nat)
    (s : GameState) (h : s.isGameOver = true) :
    applyDrawResponse action tk t s = s := by
  simp [applyDrawResponse, h]

/-- A draw response arriving when no request is thinking is discarded. -/
theorem applyDrawResponse_of_not_thinking (action : String) (tk t : Nat)
    (s : GameState) (h : s.isThinking = false) :
    applyDrawResponse action tk t s = s := by
  simp [applyDrawResponse, h]

/-- The state after `resetGame` is not thinking and not over. -/
theorem resetGame_not_thinking (s : GameState) :
    (resetGame s).isThinking = false ∧ (resetGame s).isGameOver = false :=
  ⟨rfl, rfl⟩

/-! ## The claims -/

/-- C6: the streaming decoder emits decode attempts exactly once per
complete line regardless of where chunk boundaries fall: processing two
chunks one after the other equals processing their concatenation, for
every decoder state and every pair of chunks; and concretely, feeding
`"data: {\"typ"` and then `"e\":\"thinking_delta\",\"content\":\"hi\"}\n"`
as two chunks first retains the incomplete fragment in the buffer with no
event emitted, and then produces exactly one `thinking_delta` event with
content `"hi"`. -/
theorem c6_streaming_decode_across_chunks :
    (∀ (st : DecoderState) (c1 c2 : List Char),
        processChunk (processChunk st c1) c2 = processChunk st (c1 ++ c2)) ∧
    processChunk ⟨[], []⟩ (String.data "data: \x7b\"typ") =
      ⟨String.data "data: \x7b\"typ", []⟩ ∧
    processChunk (processChunk ⟨[], []⟩ (String.data "data: \x7b\"typ"))
        (String.data "e\":\"thinking_delta\",\"content\":\"hi\"\x7d\n") =
      ⟨[], [StreamEvent.thinkingDelta "hi"]⟩ :=
  ⟨processChunk_append, by decide, by decide⟩

/-- C7 counterexample: a move request whose stream reaches end-of-stream
without any `result` event does NOT get the generic network-error
handling; starting a request from a started session and then hitting
end-of-stream leaves `isThinking` and `isStreaming` still set (the claim
says they are cleared). -/
theorem c7_counterexample :
    (finishMoveRequest "o4-mini" Color.white
        MoveRequestOutcome.endOfStreamNoResult
        (startMoveRequest true
          { initialGameState with isGameStarted := true })).isThinking
      = true ∧
    (finishMoveRequest "o4-mini" Color.white
        MoveRequestOutcome.endOfStreamNoResult
        (startMoveRequest true
          { initialGameState with isGameStarted := true })).isStreaming
      = true := by
  decide

/-- C7 as amended: when a move-request stream reaches end-of-stream
without any result event, the controller performs no handling at all —
the session state is left exactly unchanged (so the thinking and
streaming flags REMAIN set rather than being cleared), the turn does not
advance, and it is not treated as an invalid move. -/
theorem c7_end_of_stream_leaves_state_unchanged (model : String)
    (player : Color) (s : GameState) :
    finishMoveRequest model player MoveRequestOutcome.endOfStreamNoResult s
        = s ∧
    (finishMoveRequest model player
        MoveRequestOutcome.endOfStreamNoResult s).currentPlayer
      = s.currentPlayer ∧
    (finishMoveRequest model player
        MoveRequestOutcome.endOfStreamNoResult s).errorMessage
      = s.errorMessage ∧
    (finishMoveRequest model player
        MoveRequestOutcome.endOfStreamNoResult s).isThinking
      = s.isThinking := ⟨rfl, rfl, rfl, rfl⟩

/-- C2: a terminal response resolving after `resetGame()`, after the
session has become finished, or after its request was superseded (and
hence aborted, resolving through the AbortError branch) leaves the
session state completely unchanged — for both move results and
draw-response results. -/
theorem c2_stale_response_immunity (model : String) (player : Color)
    (t tk : Nat) (data : ResultData) (action : String)
    (s s0 : GameState) :
    (applyResult model player t data (resetGame s0) = resetGame s0) ∧
    (applyDrawResponse action tk t (resetGame s0) = resetGame s0) ∧
    (s.isGameOver = true → applyResult model player t data s = s) ∧
    (s.isGameOver = true → applyDrawResponse action tk t s = s) ∧
    (s.isThinking = false → applyResult model player t data s = s) ∧
    (s.isThinking = false → applyDrawResponse action tk t s = s) ∧
    (finishMoveRequest model player MoveRequestOutcome.aborted s = s) ∧
    (finishDrawRequest DrawRequestOutcome.aborted s = s) :=
  ⟨applyResult_of_not_thinking model player t data (resetGame s0) rfl,
   applyDrawResponse_of_not_thinking action tk t (resetGame s0) rfl,
   applyResult_of_gameOver model player t data s,
   applyDrawResponse_of_gameOver action tk t s,
   applyResult_of_not_thinking model player t data s,
   applyDrawResponse_of_not_thinking action tk t s,
   rfl, rfl⟩

/-- A finished session at which the C2 stale-response guards are
exercised. -/
def c2FinishedState : GameState :=
  { initialGameState with isGameOver := true }

/-- Witness for C2 at concrete inputs: a resign result and a draw-accept
response are both discarded after a reset and on a finished session. -/
theorem c2_stale_response_immunity_witness :
    (applyResult "o4-mini" Color.white 5 (ResultData.resign 3)
        (resetGame initialGameState) = resetGame initialGameState) ∧
    (applyResult "o4-mini" Color.white 5 (ResultData.resign 3)
        c2FinishedState = c2FinishedState) ∧
    (applyDrawResponse "draw_accept" 3 5 c2FinishedState
        = c2FinishedState) ∧
    (applyResult "o4-mini" Color.white 5 (ResultData.resign 3)
        initialGameState = initialGameState) ∧
    (finishMoveRequest "o4-mini" Color.white MoveRequestOutcome.aborted
        c2FinishedState = c2FinishedState) := by
  have h := c2_stale_response_immunity "o4-mini" Color.white 5 3
    (ResultData.resign 3) "draw_accept" c2FinishedState initialGameState
  have h2 := c2_stale_response_immunity "o4-mini" Color.white 5 3
    (ResultData.resign 3) "draw_accept" initialGameState initialGameState
  exact ⟨h.1, h.2.2.1 rfl, h.2.2.2.1 rfl, h2.2.2.2.2.1 rfl, h.2.2.2.2.2.2.1⟩

/-- C3: when the stale-response guard passes, an accepted move flips the
active color to its opposite, while a resign result, a draw-offer result
and any draw response (accept or decline) leave the active color
unchanged. -/
theorem c3_turn_flip (model txt newFen : String) (player : Color)
    (t tk : Nat) (rec : MoveRecord) (over mate draw : Bool)
    (action : String) (s : GameState)
    (hover : s.isGameOver = false) (hthink : s.isThinking = true) :
    (applyResult model player t
        (ResultData.move txt tk
          (EngineOutcome.accepted rec newFen over mate draw)) s).currentPlayer
      = s.currentPlayer.other ∧
    (applyResult model player t (ResultData.resign tk) s).currentPlayer
      = s.currentPlayer ∧
    (applyResult model player t (ResultData.drawOffer tk) s).currentPlayer
      = s.currentPlayer ∧
    (applyDrawResponse action tk t s).currentPlayer = s.currentPlayer := by
  refine ⟨?_, ?_, ?_, ?_⟩
  · simp [applyResult, applyResultBody, hover, hthink]
  · simp [applyResult, applyResultBody, hover, hthink]
  · simp [applyResult, applyResultBody, hover, hthink]
  · unfold applyDrawResponse
    split
    · rfl
    · split <;> rfl

/-- A thinking in-progress session at which C3 is exercised. -/
def c3ThinkingState : GameState :=
  { initialGameState with isGameStarted := true, isThinking := true }

/-- Witness for C3 at concrete inputs: an accepted pawn move flips white
to black; resign, draw offer and draw decline leave white to move. -/
theorem c3_turn_flip_witness :
    (applyResult "grok-3-mini" Color.white 7
        (ResultData.move "e4" 2
          (EngineOutcome.accepted
            { fromSq := "e2", toSq := "e4", color := Color.white,
              piece := "p", captured := none, san := "e4" }
            "rnbqkbnr/pppppppp/8/8/4P3/8/PPPP1PPP/RNBQKBNR b KQkq e3 0 1"
            false false false)) c3ThinkingState).currentPlayer
      = Color.white.other ∧
    (applyResult "grok-3-mini" Color.white 7
        (ResultData.resign 2) c3ThinkingState).currentPlayer = Color.white ∧
    (applyResult "grok-3-mini" Color.white 7
        (ResultData.drawOffer 2) c3ThinkingState).currentPlayer
      = Color.white ∧
    (applyDrawResponse "decline" 2 7 c3ThinkingState).currentPlayer
      = Color.white := by
  have h := c3_turn_flip "grok-3-mini" "e4"
    "rnbqkbnr/pppppppp/8/8/4P3/8/PPPP1PPP/RNBQKBNR b KQkq e3 0 1"
    Color.white 7 2
    { fromSq := "e2", toSq := "e4", color := Color.white,
      piece := "p", captured := none, san := "e4" }
    false false false "decline" c3ThinkingState rfl rfl
  exact h

/-- Each single operation changes the lengths of both metric sequences by
exactly its turn delta: +1 for a completed turn, +0 otherwise (excluding
the two operations that reset the sequences). -/
theorem metrics_step (op : SessionOp) (s : GameState)
    (h1 : op ≠ SessionOp.startGameOp) (h2 : op ≠ SessionOp.resetGameOp) :
    ((applyOp op s).moveThinkingTokens.length
        = s.moveThinkingTokens.length + turnDelta op s) ∧
    ((applyOp op s).moveTimes.length
        = s.moveTimes.length + turnDelta op s) := by
  cases op with
  | startMoveReq b =>
    simp only [applyOp, startMoveRequest, turnDelta]
    split <;> simp
  | finishMoveReq m p o =>
    cases o with
    | result data t =>
      simp only [applyOp, finishMoveRequest, applyResult, turnDelta]
      by_cases hg : (s.isGameOver || !s.isThinking) = true
      · simp [hg]
      · cases data with
        | resign tk => simp [hg, applyResultBody]
        | drawOffer tk => simp [hg, applyResultBody]
        | move txt tk out =>
          cases out with
          | accepted rec fen over mate draw => simp [hg, applyResultBody]
          | rejectedNull => simp [hg, applyResultBody]
          | rejectedThrow => simp [hg, applyResultBody]
        | noMove tk => simp [hg, applyResultBody]
    | networkError => simp [applyOp, finishMoveRequest, turnDelta]
    | aborted => simp [applyOp, finishMoveRequest, turnDelta]
    | endOfStreamNoResult => simp [applyOp, finishMoveRequest, turnDelta]
  | startDrawReq =>
    simp only [applyOp, startDrawRequest, turnDelta]
    split <;> simp
  | finishDrawReq o =>
    cases o with
    | result a tk t =>
      simp only [applyOp, finishDrawRequest, applyDrawResponse, turnDelta]
      by_cases hg :
          (s.isGameOver || !s.isThinking || !s.awaitingDrawResponse) = true
      · simp [hg]
      · by_cases ha : a = "draw_accept" <;> simp [hg, ha]
    | networkError =>
      simp [applyOp, finishDrawRequest, drawResponseError, turnDelta]
    | aborted => simp [applyOp, finishDrawRequest, turnDelta]
  | clearErrorTick => simp [applyOp, clearErrorTimeout, turnDelta]
  | startGameOp => exact absurd rfl h1
  | resetGameOp => exact absurd rfl h2
  | pickRandomOp l => simp [applyOp, pickRandomModels, turnDelta]
  | togglePauseOp => simp [applyOp, togglePause, turnDelta]

/-- Along any run of operations that never resets the metric sequences,
both sequences grow by exactly the number of completed turns. -/
theorem metrics_run (ops : List SessionOp) (s : GameState)
    (h : ∀ o ∈ ops,
      o ≠ SessionOp.startGameOp ∧ o ≠ SessionOp.resetGameOp) :
    ((runOps ops s).moveThinkingTokens.length
        = s.moveThinkingTokens.length + countTurns ops s) ∧
    ((runOps ops s).moveTimes.length
        = s.moveTimes.length + countTurns ops s) := by
  induction ops generalizing s with
  | nil => simp [runOps, countTurns]
  | cons op rest ih =>
    have hop := h op (List.mem_cons_self op rest)
    have hrest : ∀ o ∈ rest,
        o ≠ SessionOp.startGameOp ∧ o ≠ SessionOp.resetGameOp :=
      fun o ho => h o (List.mem_cons_of_mem op ho)
    have hstep := metrics_step op s hop.1 hop.2
    have hih := ih (applyOp op s) hrest
    unfold runOps at *
    unfold countTurns
    simp only [List.foldl_cons] at *
    omega

/-- C4: every completed turn of any kind (applied move, resignation, draw
offer, draw accept, draw decline — an operation with turn delta 1)
appends exactly one entry to each metric sequence, every other operation
appends none, and consequently, starting from empty metric sequences,
after a run containing N completed turns both sequences have exactly N
entries and hence always equal length. -/
theorem c4_metrics_alignment (op : SessionOp) (s : GameState)
    (ops : List SessionOp) (t : GameState)
    (hop1 : op ≠ SessionOp.startGameOp)
    (hop2 : op ≠ SessionOp.resetGameOp)
    (hops : ∀ o ∈ ops,
      o ≠ SessionOp.startGameOp ∧ o ≠ SessionOp.resetGameOp)
    (ht1 : t.moveThinkingTokens = []) (ht2 : t.moveTimes = []) :
    ((applyOp op s).moveThinkingTokens.length
        = s.moveThinkingTokens.length + turnDelta op s) ∧
    ((applyOp op s).moveTimes.length
        = s.moveTimes.length + turnDelta op s) ∧
    ((runOps ops t).moveThinkingTokens.length = countTurns ops t) ∧
    ((runOps ops t).moveTimes.length = countTurns ops t) ∧
    ((runOps ops t).moveThinkingTokens.length
        = (runOps ops t).moveTimes.length) := by
  have hstep := metrics_step op s hop1 hop2
  have hrun := metrics_run ops t hops
  have h1 : t.moveThinkingTokens.length = 0 := by simp [ht1]
  have h2 : t.moveTimes.length = 0 := by simp [ht2]
  exact ⟨hstep.1, hstep.2, by omega, by omega, by omega⟩

/-- A concrete two-turn script for the C4 witness: white resigns after
one accepted move by white would have been possible; here the script is
one started move request resolving as resign. -/
def c4DemoOps : List SessionOp :=
  [ SessionOp.startMoveReq true,
    SessionOp.finishMoveReq "grok-3-mini" Color.white
      (MoveRequestOutcome.result (ResultData.resign 4) 9) ]

/-- A started, idle session with empty metrics for the C4 witness. -/
def c4DemoState : GameState :=
  { initialGameState with isGameStarted := true }

/-- Witness for C4 at concrete inputs. -/
theorem c4_metrics_alignment_witness :
    ((applyOp (SessionOp.finishMoveReq "grok-3-mini" Color.white
          (MoveRequestOutcome.result (ResultData.resign 4) 9))
        { c4DemoState with isThinking := true }).moveThinkingTokens.length
      = ({ c4DemoState with
            isThinking := true } : GameState).moveThinkingTokens.length
        + turnDelta (SessionOp.finishMoveReq "grok-3-mini" Color.white
            (MoveRequestOutcome.result (ResultData.resign 4) 9))
            { c4DemoState with isThinking := true }) ∧
    ((applyOp (SessionOp.finishMoveReq "grok-3-mini" Color.white
          (MoveRequestOutcome.result (ResultData.resign 4) 9))
        { c4DemoState with isThinking := true }).moveTimes.length
      = ({ c4DemoState with
            isThinking := true } : GameState).moveTimes.length
        + turnDelta (SessionOp.finishMoveReq "grok-3-mini" Color.white
            (MoveRequestOutcome.result (ResultData.resign 4) 9))
            { c4DemoState with isThinking := true }) ∧
    ((runOps c4DemoOps c4DemoState).moveThinkingTokens.length
      = countTurns c4DemoOps c4DemoState) ∧
    ((runOps c4DemoOps c4DemoState).moveTimes.length
      = countTurns c4DemoOps c4DemoState) ∧
    ((runOps c4DemoOps c4DemoState).moveThinkingTokens.length
      = (runOps c4DemoOps c4DemoState).moveTimes.length) :=
  c4_metrics_alignment
    (SessionOp.finishMoveReq "grok-3-mini" Color.white
      (MoveRequestOutcome.result (ResultData.resign 4) 9))
    { c4DemoState with isThinking := true }
    c4DemoOps c4DemoState
    (by decide) (by decide) (by decide) rfl rfl

/-- C5: when the rules engine rejects the returned move text as illegal or
unparseable (chess.js v1.x throws on such input, e.g. "Z9", taking the
catch branch), the move history, position and active color are unchanged
(the same color is asked again on the next advance), a user-visible error
message is present immediately after the result, and it is gone once the
3-second clear timeout fires. -/
theorem c5_illegal_move_non_advancement (model txt : String)
    (player : Color) (t tk : Nat) (s : GameState)
    (hover : s.isGameOver = false) (hthink : s.isThinking = true)
    (hstart : s.isGameStarted = true) (hpause : s.isPaused = false)
    (hawait : s.awaitingDrawResponse = false)
    (hmodel : currentModel s ≠ "") :
    (applyResult model player t
        (ResultData.move txt tk EngineOutcome.rejectedThrow) s).history
      = s.history ∧
    (applyResult model player t
        (ResultData.move txt tk EngineOutcome.rejectedThrow) s).position
      = s.position ∧
    (applyResult model player t
        (ResultData.move txt tk EngineOutcome.rejectedThrow) s).currentPlayer
      = s.currentPlayer ∧
    (applyResult model player t
        (ResultData.move txt tk EngineOutcome.rejectedThrow) s).errorMessage
      = some ("Retrying request due to invalid move by "
          ++ colorName player ++ " (" ++ model ++ ")") ∧
    (clearErrorTimeout (applyResult model player t
        (ResultData.move txt tk EngineOutcome.rejectedThrow) s)).errorMessage
      = none ∧
    nextAction (applyResult model player t
        (ResultData.move txt tk EngineOutcome.rejectedThrow) s)
      = some (Request.moveReq (currentModel s) s.currentPlayer) := by
  have hbody : applyResult model player t
      (ResultData.move txt tk EngineOutcome.rejectedThrow) s
      = { s with isThinking := false, isStreaming := false,
                 errorMessage := some ("Retrying request due to invalid move by "
                   ++ colorName player ++ " (" ++ model ++ ")") } := by
    simp [applyResult, applyResultBody, hover, hthink]
  rw [hbody]
  refine ⟨rfl, rfl, rfl, rfl, rfl, ?_⟩
  simp [nextAction, currentModel, hstart, hover, hpause, hawait]
  cases hcp : s.currentPlayer <;>
    simp [nextAction, currentModel, hcp] at hmodel ⊢ <;>
    simp [hmodel, hstart, hover, hpause, hawait]

/-- A thinking in-progress session with models assigned at which C5 is
exercised with the unparseable move "Z9". -/
def c5ThinkingState : GameState :=
  { initialGameState with isGameStarted := true, isThinking := true,
                          whiteModel := "claude-opus-4-20250514",
                          blackModel := "o4-mini" }

/-- Witness for C5 at the concrete unparseable move "Z9". -/
theorem c5_illegal_move_non_advancement_witness :
    (applyResult "claude-opus-4-20250514" Color.white 8
        (ResultData.move "Z9" 2 EngineOutcome.rejectedThrow)
        c5ThinkingState).history = c5ThinkingState.history ∧
    (applyResult "claude-opus-4-20250514" Color.white 8
        (ResultData.move "Z9" 2 EngineOutcome.rejectedThrow)
        c5ThinkingState).position = c5ThinkingState.position ∧
    (applyResult "claude-opus-4-20250514" Color.white 8
        (ResultData.move "Z9" 2 EngineOutcome.rejectedThrow)
        c5ThinkingState).currentPlayer = c5ThinkingState.currentPlayer ∧
    (applyResult "claude-opus-4-20250514" Color.white 8
        (ResultData.move "Z9" 2 EngineOutcome.rejectedThrow)
        c5ThinkingState).errorMessage
      = some ("Retrying request due to invalid move by "
          ++ colorName Color.white ++ " (" ++ "claude-opus-4-20250514" ++ ")") ∧
    (clearErrorTimeout (applyResult "claude-opus-4-20250514" Color.white 8
        (ResultData.move "Z9" 2 EngineOutcome.rejectedThrow)
        c5ThinkingState)).errorMessage = none ∧
    nextAction (applyResult "claude-opus-4-20250514" Color.white 8
        (ResultData.move "Z9" 2 EngineOutcome.rejectedThrow)
        c5ThinkingState)
      = some (Request.moveReq (currentModel c5ThinkingState)
          c5ThinkingState.currentPlayer) :=
  c5_illegal_move_non_advancement "claude-opus-4-20250514" "Z9"
    Color.white 8 2 c5ThinkingState rfl rfl rfl rfl rfl (by decide)

/-- The session state reached by starting a game between
claude-opus-4-20250514 (white) and o4-mini (black), issuing white's move
request, and receiving a draw-offer result from white. -/
def c1OfferState : GameState :=
  finishMoveRequest "claude-opus-4-20250514" Color.white
    (MoveRequestOutcome.result (ResultData.drawOffer 5) 100)
    (startMoveRequest true
      (startGame { initialGameState with
        whiteModel := "claude-opus-4-20250514", blackModel := "o4-mini" }))

/-- C1 (failing input): with white having offered the draw (the draw
offer leaves `currentPlayer` at the offering color), the next request the
controller issues IS a draw-response request and NOT a move request, but
it is addressed to the OFFERING color's model ("claude-opus-4-20250514",
white's model) rather than to the non-offering color's model ("o4-mini"),
contradicting the claim — and contradicting the component's own UI text,
which displays "Waiting for Black to respond...". -/
theorem c1_draw_response_addressed_to_offerer :
    c1OfferState.awaitingDrawResponse = true ∧
    c1OfferState.drawOffer.offered = true ∧
    c1OfferState.drawOffer.offeredBy = some Color.white ∧
    c1OfferState.whiteModel = "claude-opus-4-20250514" ∧
    c1OfferState.blackModel = "o4-mini" ∧
    nextAction c1OfferState
      = some (Request.drawResponseReq "claude-opus-4-20250514" Color.white) ∧
    nextAction c1OfferState
      ≠ some (Request.drawResponseReq "o4-mini" Color.black) := by
  decide

/-- A not-started session with models assigned but stale captured pieces
and a stale active color, exhibiting what `startGame` fails to reset. -/
def c8StaleState : GameState :=
  { initialGameState with whiteModel := "claude-opus-4-20250514",
                          blackModel := "o4-mini",
                          capturedPieces := { white := ["p"], black := [] },
                          currentPlayer := Color.black }

/-- C8 counterexample: with both models non-empty, `startGame` does NOT
reset the captured-piece lists and does NOT set the active color to
white — it spreads the previous state, so stale captures and a stale
active color survive, contrary to the claim. -/
theorem c8_counterexample :
    c8StaleState.whiteModel ≠ "" ∧ c8StaleState.blackModel ≠ "" ∧
    (startGame c8StaleState).capturedPieces.white = ["p"] ∧
    (startGame c8StaleState).currentPlayer = Color.black := by
  decide

/-- C8 as amended: `startGame` with both models non-empty starts the game
with a fresh position, empty history, empty metrics, no draw offer and no
error, but merely PRESERVES the captured-piece lists, the active color,
the game-over flag and the pause flag from the previous state; since the
UI only offers Start from not-started states (the initial state or the
state after `resetGame`), where those preserved fields are already
empty / white / false, the resulting session is fresh and in progress in
practice.  With either model empty it reports a validation alert and
changes no state. -/
theorem c8_start_game_amended (s : GameState)
    (hw : s.whiteModel ≠ "") (hb : s.blackModel ≠ "")
    (hcw : s.capturedPieces.white = []) (hcb : s.capturedPieces.black = [])
    (hcp : s.currentPlayer = Color.white) (hov : s.isGameOver = false)
    (hpa : s.isPaused = false) :
    (startGame s).isGameStarted = true ∧
    (startGame s).position = initialFen ∧
    (startGame s).history = [] ∧
    (startGame s).moveThinkingTokens = [] ∧
    (startGame s).moveTimes = [] ∧
    (startGame s).capturedPieces.white = [] ∧
    (startGame s).capturedPieces.black = [] ∧
    (startGame s).currentPlayer = Color.white ∧
    (startGame s).isGameOver = false ∧
    (startGame s).isPaused = false ∧
    (startGame s).awaitingDrawResponse = false ∧
    (startGame s).drawOffer.offered = false ∧
    (startGame s).errorMessage = none ∧
    (∀ s2 : GameState, s2.whiteModel = "" ∨ s2.blackModel = "" →
      startGame s2 = s2) := by
  have hgo : startGame s
      = { s with isGameStarted := true, position := initialFen,
                 history := [], moveThinkingTokens := [], moveTimes := [],
                 drawOffer := { offered := false, offeredBy := none },
                 awaitingDrawResponse := false, thinkingOutput := "",
                 isStreaming := false, errorMessage := none } := by
    simp [startGame, hw, hb]
  refine ⟨?_, ?_, ?_, ?_, ?_, ?_, ?_, ?_, ?_, ?_, ?_, ?_, ?_, ?_⟩ <;>
    try simp [hgo, hcw, hcb, hcp, hov, hpa]
  intro s2 h2
  rcases h2 with h2 | h2 <;> simp [startGame, h2]

/-- A fresh not-started session with models assigned for the C8 witness. -/
def c8FreshState : GameState :=
  { initialGameState with whiteModel := "claude-opus-4-20250514",
                          blackModel := "o4-mini" }

/-- Witness for C8 (amended) at a concrete fresh state. -/
theorem c8_start_game_amended_witness :
    (startGame c8FreshState).isGameStarted = true ∧
    (startGame c8FreshState).position = initialFen ∧
    (startGame c8FreshState).history = [] ∧
    (startGame c8FreshState).moveThinkingTokens = [] ∧
    (startGame c8FreshState).moveTimes = [] ∧
    (startGame c8FreshState).capturedPieces.white = [] ∧
    (startGame c8FreshState).capturedPieces.black = [] ∧
    (startGame c8FreshState).currentPlayer = Color.white ∧
    (startGame c8FreshState).isGameOver = false ∧
    (startGame c8FreshState).isPaused = false ∧
    (startGame c8FreshState).awaitingDrawResponse = false ∧
    (startGame c8FreshState).drawOffer.offered = false ∧
    (startGame c8FreshState).errorMessage = none ∧
    (∀ s2 : GameState, s2.whiteModel = "" ∨ s2.blackModel = "" →
      startGame s2 = s2) :=
  c8_start_game_amended c8FreshState (by decide) (by decide)
    rfl rfl rfl rfl rfl

/-- C9: for every outcome of the random shuffle (every permutation of the
six-element `MODELS` list), `pickRandomModels` assigns two DISTINCT model
identifiers, both drawn from `MODELS`, to white and black, and leaves
every other session field untouched. -/
theorem c9_pick_random_models (s : GameState) (l : List String)
    (h : l.Perm MODELS) :
    (pickRandomModels l s).whiteModel ≠ (pickRandomModels l s).blackModel ∧
    (pickRandomModels l s).whiteModel ∈ MODELS ∧
    (pickRandomModels l s).blackModel ∈ MODELS ∧
    (pickRandomModels l s).position = s.position ∧
    (pickRandomModels l s).history = s.history ∧
    (pickRandomModels l s).isGameStarted = s.isGameStarted ∧
    (pickRandomModels l s).isGameOver = s.isGameOver ∧
    (pickRandomModels l s).currentPlayer = s.currentPlayer ∧
    (pickRandomModels l s).isThinking = s.isThinking ∧
    (pickRandomModels l s).gameResult = s.gameResult ∧
    (pickRandomModels l s).isPaused = s.isPaused ∧
    (pickRandomModels l s).capturedPieces = s.capturedPieces ∧
    (pickRandomModels l s).moveThinkingTokens = s.moveThinkingTokens ∧
    (pickRandomModels l s).moveTimes = s.moveTimes ∧
    (pickRandomModels l s).drawOffer = s.drawOffer ∧
    (pickRandomModels l s).awaitingDrawResponse = s.awaitingDrawResponse ∧
    (pickRandomModels l s).thinkingOutput = s.thinkingOutput ∧
    (pickRandomModels l s).isStreaming = s.isStreaming ∧
    (pickRandomModels l s).errorMessage = s.errorMessage ∧
    (pickRandomModels l s).lastMove = s.lastMove := by
  have hlen : l.length = 6 := by
    have := h.length_eq
    simpa [ MODELS ] using this
  obtain ⟨a, rest, rfl⟩ : ∃ a rest, l = a :: rest := by
    cases l with
    | nil => simp at hlen
    | cons a rest => exact ⟨a, rest, rfl⟩
  obtain ⟨b, rest2, rfl⟩ : ∃ b rest2, rest = b :: rest2 := by
    cases rest with
    | nil => simp at hlen
    | cons b rest2 => exact ⟨b, rest2, rfl⟩
  have hnd : (a :: b :: rest2).Nodup := by
    have hMODELS : MODELS.Nodup := by decide
    exact h.nodup_iff.mpr hMODELS
  have hab : a ≠ b := by
    intro hab
    have := List.nodup_cons.mp hnd
    exact this.1 (hab ▸ List.mem_cons_self b rest2)
  have hma : a ∈ MODELS := h.subset (List.mem_cons_self a (b :: rest2))
  have hmb : b ∈ MODELS :=
    h.subset (List.mem_cons_of_mem a (List.mem_cons_self b rest2))
  refine ⟨?_, ?_, ?_, rfl, rfl, rfl, rfl, rfl, rfl, rfl, rfl, rfl, rfl,
    rfl, rfl, rfl, rfl, rfl, rfl, rfl⟩ <;>
    simpa [pickRandomModels] using (by first | exact hab | exact hma | exact hmb)

/-- Witness for C9 at the identity permutation of `MODELS`. -/
theorem c9_pick_random_models_witness :
    (pickRandomModels MODELS initialGameState).whiteModel
      ≠ (pickRandomModels MODELS initialGameState).blackModel ∧
    (pickRandomModels MODELS initialGameState).whiteModel ∈ MODELS ∧
    (pickRandomModels MODELS initialGameState).blackModel ∈ MODELS ∧
    (pickRandomModels MODELS initialGameState).position
      = initialGameState.position ∧
    (pickRandomModels MODELS initialGameState).history
      = initialGameState.history ∧
    (pickRandomModels MODELS initialGameState).isGameStarted
      = initialGameState.isGameStarted ∧
    (pickRandomModels MODELS initialGameState).isGameOver
      = initialGameState.isGameOver ∧
    (pickRandomModels MODELS initialGameState).currentPlayer
      = initialGameState.currentPlayer ∧
    (pickRandomModels MODELS initialGameState).isThinking
      = initialGameState.isThinking ∧
    (pickRandomModels MODELS initialGameState).gameResult
      = initialGameState.gameResult ∧
    (pickRandomModels MODELS initialGameState).isPaused
      = initialGameState.isPaused ∧
    (pickRandomModels MODELS initialGameState).capturedPieces
      = initialGameState.capturedPieces ∧
    (pickRandomModels MODELS initialGameState).moveThinkingTokens
      = initialGameState.moveThinkingTokens ∧
    (pickRandomModels MODELS initialGameState).moveTimes
      = initialGameState.moveTimes ∧
    (pickRandomModels MODELS initialGameState).drawOffer
      = initialGameState.drawOffer ∧
    (pickRandomModels MODELS initialGameState).awaitingDrawResponse
      = initialGameState.awaitingDrawResponse ∧
    (pickRandomModels MODELS initialGameState).thinkingOutput
      = initialGameState.thinkingOutput ∧
    (pickRandomModels MODELS initialGameState).isStreaming
      = initialGameState.isStreaming ∧
    (pickRandomModels MODELS initialGameState).errorMessage
      = initialGameState.errorMessage ∧
    (pickRandomModels MODELS initialGameState).lastMove
      = initialGameState.lastMove :=
  c9_pick_random_models initialGameState MODELS (List.Perm.refl MODELS)

/-- C10: when a draw-response request fails with a non-abort transport
error, the pending draw offer is silently dropped — `awaitingDrawResponse`
and the draw offer are cleared and the thinking flag is reset — with no
metrics entry appended and the active color unchanged, so the next
request the controller issues is an ordinary move request for the same
color, not another draw-response request. -/
theorem c10_draw_response_error_drops_offer (s : GameState)
    (hstart : s.isGameStarted = true) (hover : s.isGameOver = false)
    (hpause : s.isPaused = false) (hmodel : currentModel s ≠ "") :
    (finishDrawRequest DrawRequestOutcome.networkError s).isThinking
      = false ∧
    (finishDrawRequest DrawRequestOutcome.networkError s).awaitingDrawResponse
      = false ∧
    (finishDrawRequest DrawRequestOutcome.networkError s).drawOffer.offered
      = false ∧
    (finishDrawRequest DrawRequestOutcome.networkError s).drawOffer.offeredBy
      = none ∧
    (finishDrawRequest DrawRequestOutcome.networkError s).moveThinkingTokens
      = s.moveThinkingTokens ∧
    (finishDrawRequest DrawRequestOutcome.networkError s).moveTimes
      = s.moveTimes ∧
    (finishDrawRequest DrawRequestOutcome.networkError s).currentPlayer
      = s.currentPlayer ∧
    nextAction (finishDrawRequest DrawRequestOutcome.networkError s)
      = some (Request.moveReq (currentModel s) s.currentPlayer) := by
  refine ⟨rfl, rfl, rfl, rfl, rfl, rfl, rfl, ?_⟩
  show nextAction (drawResponseError s) = _
  cases hcp : s.currentPlayer <;>
    simp [nextAction, currentModel, drawResponseError, hcp] at hmodel ⊢ <;>
    simp [hmodel, hstart, hover, hpause]

/-- An awaiting-draw-response session (black offered) for the C10
witness. -/
def c10AwaitingState : GameState :=
  { initialGameState with isGameStarted := true, isThinking := true,
                          awaitingDrawResponse := true,
                          drawOffer := { offered := true,
                                         offeredBy := some Color.black },
                          currentPlayer := Color.black,
                          whiteModel := "grok-3-mini",
                          blackModel := "o4-mini" }

/-- Witness for C10 at a concrete awaiting-draw-response state. -/
theorem c10_draw_response_error_drops_offer_witness :
    (finishDrawRequest DrawRequestOutcome.networkError
        c10AwaitingState).isThinking = false ∧
    (finishDrawRequest DrawRequestOutcome.networkError
        c10AwaitingState).awaitingDrawResponse = false ∧
    (finishDrawRequest DrawRequestOutcome.networkError
        c10AwaitingState).drawOffer.offered = false ∧
    (finishDrawRequest DrawRequestOutcome.networkError
        c10AwaitingState).drawOffer.offeredBy = none ∧
    (finishDrawRequest DrawRequestOutcome.networkError
        c10AwaitingState).moveThinkingTokens
      = c10AwaitingState.moveThinkingTokens ∧
    (finishDrawRequest DrawRequestOutcome.networkError
        c10AwaitingState).moveTimes = c10AwaitingState.moveTimes ∧
    (finishDrawRequest DrawRequestOutcome.networkError
        c10AwaitingState).currentPlayer = c10AwaitingState.currentPlayer ∧
    nextAction (finishDrawRequest DrawRequestOutcome.networkError
        c10AwaitingState)
      = some (Request.moveReq (currentModel c10AwaitingState)
          c10AwaitingState.currentPlayer) :=
  c10_draw_response_error_drops_offer c10AwaitingState
    rfl rfl rfl (by decide)
